import Mathlib

/-!
Verification development for the Broker-Assistant analysis core.

The Python services are shallowly embedded in Lean 4:
prices, scores and confidences become `ℚ`; `datetime` values become `ℤ`
(seconds, with `timedelta(days := n)` embedded as `n * 86400`); Python
dictionaries that may be `None` become `Option`-valued structures; the
Redis/JSON cache layer is embedded through explicit `Except`-valued
collaborator functions; `try/except` fallbacks become the corresponding
total case analyses.  All definitions are transcribed from the source
modules `app/services/technical_analysis.py`,
`app/services/prediction_service.py` and `app/utils/cache.py`.
-/

namespace Broker

/-- One detected chart pattern: the dictionary built by
`TechnicalAnalysisService._simple_pattern_detection`. -/
structure PatternMatch where
  name : String
  type : String
  confidence : ℚ
  indicator : String
  deriving DecidableEq, Repr

/-- The `bollinger_bands` entry of the indicator dictionary
(`_calculate_indicators`); band values are `none` when the library
returned NaN. -/
structure BollingerBands where
  upper : Option ℚ
  middle : Option ℚ
  lower : Option ℚ
  current_price : ℚ
  signal : String
  deriving DecidableEq, Repr

/-- The `rsi` entry of the indicator dictionary. -/
structure Rsi where
  value : Option ℚ
  signal : String
  deriving DecidableEq, Repr

/-- The `stochastic` entry of the indicator dictionary. -/
structure Stochastic where
  k : Option ℚ
  d : Option ℚ
  signal : String
  deriving DecidableEq, Repr

/-- The `macd` entry of the indicator dictionary. -/
structure Macd where
  macd : Option ℚ
  signal : Option ℚ
  histogram : Option ℚ
  trend : String
  deriving DecidableEq, Repr

/-- The indicator dictionary returned by `_calculate_indicators`: each of
the four entries is `none` when its computation raised and the
`except` branch stored `None`. -/
structure Indicators where
  bollinger_bands : Option BollingerBands
  rsi : Option Rsi
  stochastic : Option Stochastic
  macd : Option Macd
  deriving DecidableEq, Repr

/-- A trading signal as emitted by `_generate_signals`. -/
structure Signal where
  type : String
  confidence : ℚ
  strength : String
  supporting_factors : ℕ
  deriving DecidableEq, Repr

/-- The buy-side score accumulated by `_generate_signals`: one point per
buy-leaning indicator signal, two points per bullish pattern whose
confidence reaches the configured threshold. -/
def buyScore (threshold : ℚ) (indicators : Indicators) (patterns : List PatternMatch) : ℕ :=
  (match indicators.rsi with
    | some r => if r.signal = "oversold" then 1 else 0
    | none => 0) +
  (match indicators.bollinger_bands with
    | some b => if b.signal = "oversold" then 1 else 0
    | none => 0) +
  (match indicators.stochastic with
    | some st => if st.signal = "oversold" ∨ st.signal = "bullish_crossover" then 1 else 0
    | none => 0) +
  (match indicators.macd with
    | some m => if m.trend = "bullish" then 1 else 0
    | none => 0) +
  patterns.foldl
    (fun acc p => if threshold ≤ p.confidence ∧ p.type = "bullish" then acc + 2 else acc) 0

/-- The sell-side score accumulated by `_generate_signals`. -/
def sellScore (threshold : ℚ) (indicators : Indicators) (patterns : List PatternMatch) : ℕ :=
  (match indicators.rsi with
    | some r => if r.signal = "overbought" then 1 else 0
    | none => 0) +
  (match indicators.bollinger_bands with
    | some b => if b.signal = "overbought" then 1 else 0
    | none => 0) +
  (match indicators.stochastic with
    | some st =>
        if st.signal = "oversold" ∨ st.signal = "bullish_crossover" then 0
        else if st.signal = "overbought" ∨ st.signal = "bearish_crossover" then 1 else 0
    | none => 0) +
  (match indicators.macd with
    | some m => if m.trend = "bearish" then 1 else 0
    | none => 0) +
  patterns.foldl
    (fun acc p => if threshold ≤ p.confidence ∧ p.type = "bearish" then acc + 2 else acc) 0

/-- Python's two-argument `min`, written out so that it evaluates by kernel
reduction on `ℚ`. -/
def pymin (a b : ℚ) : ℚ := if a ≤ b then a else b

/-- `TechnicalAnalysisService._generate_signals`: emits a BUY signal when
`buy_score ≥ 3` and a SELL signal when `sell_score ≥ 3`, each with
`confidence = min(score / max_score, 1)` where
`max_score = 4 + 2 * len(patterns)`, and strength `strong` iff the
score is at least 5. -/
def generate_signals (threshold : ℚ) (indicators : Indicators) (patterns : List PatternMatch) :
    List Signal :=
  let buy_score := buyScore threshold indicators patterns
  let sell_score := sellScore threshold indicators patterns
  let max_score : ℚ := 4 + 2 * (patterns.length : ℚ)
  (if 3 ≤ buy_score then
    [{ type := "BUY", confidence := pymin ((buy_score : ℚ) / max_score) 1,
       strength := if 5 ≤ buy_score then "strong" else "moderate",
       supporting_factors := buy_score }]
   else []) ++
  (if 3 ≤ sell_score then
    [{ type := "SELL", confidence := pymin ((sell_score : ℚ) / max_score) 1,
       strength := if 5 ≤ sell_score then "strong" else "moderate",
       supporting_factors := sell_score }]
   else [])

/-- One OHLCV row of the price DataFrame; `open_` stands for the `open`
column (a Lean keyword). -/
structure PriceBar where
  timestamp : ℤ
  open_ : ℚ
  high : ℚ
  low : ℚ
  close : ℚ
  volume : ℚ
  deriving DecidableEq, Repr

/-- `TechnicalAnalysisService._simple_pattern_detection`: price-action
heuristics on the most recent bar.  An empty frame makes `df.iloc[-1]`
raise, the `except` branch swallows it and the accumulated empty list is
returned. -/
def simple_pattern_detection (df : List PriceBar) : List PatternMatch :=
  match df.getLast? with
  | none => []
  | some last_candle =>
    let body_size := |last_candle.close - last_candle.open_|
    let candle_range := last_candle.high - last_candle.low
    let doji : List PatternMatch :=
      if 0 < candle_range ∧ body_size / candle_range < 0.1 then
        [{ name := "Doji", type := "neutral", confidence := 0.7, indicator := "simple_doji" }]
      else []
    let lower_shadow :=
      if last_candle.open_ < last_candle.close then last_candle.open_ - last_candle.low
      else last_candle.close - last_candle.low
    let hammer : List PatternMatch :=
      if 0 < candle_range ∧ 0.6 < lower_shadow / candle_range then
        [{ name := "Hammer", type := "bullish", confidence := 0.65, indicator := "simple_hammer" }]
      else []
    let upper_shadow :=
      if last_candle.open_ < last_candle.close then last_candle.high - last_candle.close
      else last_candle.high - last_candle.open_
    let shooting_star : List PatternMatch :=
      if 0 < candle_range ∧ 0.6 < upper_shadow / candle_range then
        [{ name := "Shooting Star", type := "bearish", confidence := 0.65,
           indicator := "simple_shooting_star" }]
      else []
    doji ++ hammer ++ shooting_star

/-- The dictionary returned by `analyze_asset` (and consumed by the
prediction service as `tech_analysis`). -/
structure TechAnalysis where
  symbol : String
  indicators : Indicators
  patterns : List PatternMatch
  signals : List Signal
  deriving DecidableEq, Repr

/-- The news-sentiment dictionary handed to `_combine_analyses`; only its
`score` field is read there. -/
structure NewsAnalysis where
  score : ℚ
  sentiment : String
  summary : String
  deriving DecidableEq, Repr

/-- The prediction dictionary returned by `_combine_analyses`.  Keys that a
branch does not set are read back with `.get(...)`, hence the `Option`
fields. -/
structure PredictionResult where
  type : String
  confidence : ℚ
  target_price : Option ℚ
  stop_loss : Option ℚ
  time_horizon : Option String
  market_condition : Option String
  deriving DecidableEq, Repr

/-- The technical-signal loop of `_combine_analyses`: each signal
contributes its own confidence as weight; BUY weights to the buy side,
SELL weights to the sell side, every weight to the total.  Returns
`(buy_score, sell_score, total_weight)`. -/
def signalScores (signals : List Signal) : ℚ × ℚ × ℚ :=
  signals.foldl
    (fun acc s =>
      (if s.type = "BUY" then acc.1 + s.confidence else acc.1,
       if s.type = "SELL" then acc.2.1 + s.confidence else acc.2.1,
       acc.2.2 + s.confidence))
    (0, 0, 0)

/-- The score accumulation of `_combine_analyses`: technical signals plus
the optional news sentiment (fixed weight 0.3, buy side above 0.6, sell
side below 0.4). -/
def analysisScores (tech : Option TechAnalysis) (news : Option NewsAnalysis) : ℚ × ℚ × ℚ :=
  let t :=
    match tech with
    | some ta => signalScores ta.signals
    | none => (0, 0, 0)
  match news with
  | some n =>
      (if 0.6 < n.score then t.1 + 0.3 else t.1,
       if n.score < 0.4 then t.2.1 + 0.3 else t.2.1,
       t.2.2 + 0.3)
  | none => t

/-- `total_weight` of `_combine_analyses`. -/
def total_weight (tech : Option TechAnalysis) (news : Option NewsAnalysis) : ℚ :=
  (analysisScores tech news).2.2

/-- `buy_confidence` of `_combine_analyses`
(`buy_score / total_weight if total_weight > 0 else 0`). -/
def buy_confidence (tech : Option TechAnalysis) (news : Option NewsAnalysis) : ℚ :=
  if 0 < total_weight tech news then (analysisScores tech news).1 / total_weight tech news
  else 0

/-- `sell_confidence` of `_combine_analyses`. -/
def sell_confidence (tech : Option TechAnalysis) (news : Option NewsAnalysis) : ℚ :=
  if 0 < total_weight tech news then (analysisScores tech news).2.1 / total_weight tech news
  else 0

/-- `PredictionService._determine_market_condition`.  `tech = none` stands
for a missing/empty technical-analysis dictionary (the `not tech_analysis
or not tech_analysis.get('indicators')` guard).  The RSI votes keep
Python's truthiness guard `if rsi_value and ...`: a numeric value of
exactly 0 is falsy and casts no vote. -/
def determine_market_condition (tech : Option TechAnalysis) : String :=
  match tech with
  | none => "neutral"
  | some ta =>
    let indicators := ta.indicators
    let macd_votes : ℕ × ℕ :=
      match indicators.macd with
      | some m =>
        if m.trend = "bullish" then (1, 0)
        else if m.trend = "bearish" then (0, 1)
        else (0, 0)
      | none => (0, 0)
    let rsi_votes : ℕ × ℕ :=
      match indicators.rsi with
      | some r =>
        match r.value with
        | some v =>
          if v ≠ 0 ∧ 50 < v then (1, 0)
          else if v ≠ 0 ∧ v < 50 then (0, 1)
          else (0, 0)
        | none => (0, 0)
      | none => (0, 0)
    let bullish_count := macd_votes.1 + rsi_votes.1
    let bearish_count := macd_votes.2 + rsi_votes.2
    if bearish_count < bullish_count then "bullish"
    else if bullish_count < bearish_count then "bearish"
    else "sideways"

/-- The market-condition rule exactly as the specification states it: an
available RSI value strictly above 50 is one bullish vote and strictly
below 50 one bearish vote, with no further guard.  Used to compare the
claimed rule with the transcribed `determine_market_condition`. -/
def market_condition_claimed (tech : Option TechAnalysis) : String :=
  match tech with
  | none => "neutral"
  | some ta =>
    let indicators := ta.indicators
    let macd_votes : ℕ × ℕ :=
      match indicators.macd with
      | some m =>
        if m.trend = "bullish" then (1, 0)
        else if m.trend = "bearish" then (0, 1)
        else (0, 0)
      | none => (0, 0)
    let rsi_votes : ℕ × ℕ :=
      match indicators.rsi with
      | some r =>
        match r.value with
        | some v =>
          if 50 < v then (1, 0)
          else if v < 50 then (0, 1)
          else (0, 0)
        | none => (0, 0)
      | none => (0, 0)
    let bullish_count := macd_votes.1 + rsi_votes.1
    let bearish_count := macd_votes.2 + rsi_votes.2
    if bearish_count < bullish_count then "bullish"
    else if bullish_count < bearish_count then "bearish"
    else "sideways"

/-- `PredictionService._combine_analyses`: score accumulation, the
zero-weight early return, and the four-rung decision ladder. -/
def combine_analyses (threshold current_price : ℚ) (tech : Option TechAnalysis)
    (news : Option NewsAnalysis) : PredictionResult :=
  if total_weight tech news = 0 then
    { type := "HOLD", confidence := 0.5, target_price := none, stop_loss := none,
      time_horizon := none, market_condition := some "uncertain" }
  else
    let bc := buy_confidence tech news
    let sc := sell_confidence tech news
    let core : String × ℚ × Option ℚ × Option ℚ :=
      if threshold ≤ bc then
        ("BUY", bc, some (current_price * 1.08), some (current_price * 0.95))
      else if threshold ≤ sc then
        ("SELL", sc, some (current_price * 0.92), some (current_price * 1.05))
      else if sc < bc ∧ 0.6 ≤ bc then
        ("BUY", bc, some (current_price * 1.05), some (current_price * 0.97))
      else if bc < sc ∧ 0.6 ≤ sc then
        ("SELL", sc, some (current_price * 0.95), some (current_price * 1.03))
      else ("HOLD", 0.5, none, none)
    { type := core.1, confidence := core.2.1, target_price := core.2.2.1,
      stop_loss := core.2.2.2, time_horizon := some "medium",
      market_condition := some (determine_market_condition tech) }

/-- A persisted `Prediction` row, restricted to the fields the embedded
claims read or write.  Timestamps are seconds. -/
structure PredictionRecord where
  symbol : String
  prediction_type : String
  confidence_score : ℚ
  target_price : Option ℚ
  stop_loss : Option ℚ
  time_horizon : String
  analysis_type : String
  price_at_prediction : ℚ
  market_condition : String
  actual_outcome : String
  created_at : ℤ
  expires_at : ℤ
  outcome_verified_at : Option ℤ
  deriving DecidableEq, Repr

/-- The record-construction part of `PredictionService.generate_prediction`:
field defaults (`time_horizon` falls back to `medium`, `market_condition`
to `neutral`, outcome starts `pending`) and the expiry assignment keyed by
the time horizon (7, 90, else 30 days of 86400 seconds).  The clock is an
explicit `now` parameter standing for `datetime.utcnow()` during the
creation transaction. -/
def generate_prediction_record (now : ℤ) (symbol analysis_type : String)
    (prediction_result : PredictionResult) (current_price : ℚ) : PredictionRecord :=
  let th := prediction_result.time_horizon.getD "medium"
  { symbol := symbol
    prediction_type := prediction_result.type
    confidence_score := prediction_result.confidence
    target_price := prediction_result.target_price
    stop_loss := prediction_result.stop_loss
    time_horizon := th
    analysis_type := analysis_type
    price_at_prediction := current_price
    market_condition := prediction_result.market_condition.getD "neutral"
    actual_outcome := "pending"
    created_at := now
    expires_at := now + (if th = "short" then 7 else if th = "long" then 90 else 30) * 86400
    outcome_verified_at := none }

/-- The selection filter of `PredictionService.verify_predictions`:
`actual_outcome == 'pending' and expires_at <= now`, optionally narrowed
to a symbol list (an empty list is falsy in Python and applies no
filter). -/
def shouldVerify (now : ℤ) (symbols : Option (List String)) (r : PredictionRecord) : Bool :=
  r.actual_outcome == "pending" && decide (r.expires_at ≤ now) &&
    (match symbols with
     | none => true
     | some ss => ss.isEmpty || ss.contains r.symbol)

/-- The per-record effect of the verification sweep: selected records get
`outcome_verified_at = now` stamped; the outcome itself is left
untouched (the source only stamps the timestamp). -/
def verifyRecord (now : ℤ) (symbols : Option (List String)) (r : PredictionRecord) :
    PredictionRecord :=
  if shouldVerify now symbols r then { r with outcome_verified_at := some now } else r

/-- `PredictionService.verify_predictions` over an embedded store: every
row passes through `verifyRecord`; unselected rows are returned as they
were. -/
def verify_predictions (now : ℤ) (symbols : Option (List String))
    (db : List PredictionRecord) : List PredictionRecord :=
  db.map (verifyRecord now symbols)

/-- `cache_get` from `app/utils/cache.py`.  `fetch` is the outcome of
`redis_client.get(key)` (`Except.error` = backend raised, `ok none` =
key absent); `parse` is `json.loads`.  Any raised exception lands in the
`except` branch, which returns `None`. -/
def cache_get {α : Type} (fetch : Except String (Option String))
    (parse : String → Except String α) : Option α :=
  match fetch with
  | Except.error _ => none
  | Except.ok none => none
  | Except.ok (some value) =>
    if value = "" then none
    else
      match parse value with
      | Except.error _ => none
      | Except.ok v => some v

/-- `cache_set` from `app/utils/cache.py`.  `serialize` is the outcome of
`json.dumps(value)`, `setex` the outcome of `redis_client.setex`; a raise
anywhere inside the `try` yields `False`, success yields `True`. -/
def cache_set (ttl : Option ℕ) (config_ttl : ℕ) (serialize : Except String String)
    (setex : String → ℕ → Except String Unit) : Bool :=
  let t := ttl.getD config_ttl
  match serialize with
  | Except.error _ => false
  | Except.ok payload =>
    match setex payload t with
    | Except.error _ => false
    | Except.ok _ => true

/-- The dictionary returned by `PredictionService.get_accuracy_stats`. -/
structure AccuracyStats where
  total_predictions : ℕ
  correct_predictions : ℕ
  accuracy_percentage : ℚ
  symbol : Option String
  deriving DecidableEq, Repr

/-- The optional symbol filter of `get_accuracy_stats` (an empty string is
falsy in Python and applies no filter). -/
def matchesSymbol (symbol : Option String) (r : PredictionRecord) : Bool :=
  match symbol with
  | none => true
  | some s => if s = "" then true else r.symbol == s

/-- `PredictionService.get_accuracy_stats` over an embedded store: counts
non-pending (optionally symbol-filtered) records and the correct ones
among them; `accuracy = correct / total * 100` with a 0 fallback for an
empty selection. -/
def get_accuracy_stats (symbol : Option String) (db : List PredictionRecord) : AccuracyStats :=
  let total :=
    (db.filter (fun r => r.actual_outcome != "pending" && matchesSymbol symbol r)).length
  let correct :=
    (db.filter (fun r =>
      r.actual_outcome != "pending" && matchesSymbol symbol r &&
        r.actual_outcome == "correct")).length
  let accuracy : ℚ := if 0 < total then (correct : ℚ) / (total : ℚ) * 100 else 0
  { total_predictions := total, correct_predictions := correct,
    accuracy_percentage := accuracy, symbol := symbol }

/-- `get_analysis_cache_key` from `app/utils/cache.py`. -/
def get_analysis_cache_key (symbol analysis_type : String) : String :=
  "analysis:" ++ analysis_type ++ ":" ++ symbol

/-- `TechnicalAnalysisService.analyze_asset`.  The indicator and pattern
computations (backed by the external `ta` library) are collaborator
parameters `calcInd` and `det`; `fetch`/`parse` embed the Redis/JSON layer
as in `cache_get`, with `parse` returning `ok none` for a JSON value
that is falsy in Python (so the `if cached:` test fails on it).  The
second component of the result records the `cache_set` effect
`(key, value, ttl = 300)`; a cache hit performs no recomputation and no
write. -/
def analyze_asset (calcInd : List PriceBar → Indicators)
    (det : List PriceBar → List PatternMatch) (threshold : ℚ)
    (fetch : String → Except String (Option String))
    (parse : String → Except String (Option TechAnalysis))
    (symbol : String) (price_data : List PriceBar) :
    TechAnalysis × Option (String × TechAnalysis × ℕ) :=
  let cache_key := get_analysis_cache_key symbol "technical"
  match cache_get (fetch cache_key) parse with
  | some (some cached) => (cached, none)
  | _ =>
    let indicators := calcInd price_data
    let patterns := det price_data
    let results : TechAnalysis :=
      { symbol := symbol, indicators := indicators, patterns := patterns,
        signals := generate_signals threshold indicators patterns }
    (results, some (cache_key, results, 300))

/-- An indicator set whose four signals all qualify for the buy side; used
as concrete witness input. -/
def oversoldIndicators : Indicators :=
  { bollinger_bands := some { upper := none, middle := none, lower := none,
                              current_price := 100, signal := "oversold" },
    rsi := some { value := some 25, signal := "oversold" },
    stochastic := some { k := some 10, d := some 12, signal := "oversold" },
    macd := some { macd := none, signal := none, histogram := none, trend := "bullish" } }

/-- A technical-analysis result whose RSI value is exactly 0 (strongly
oversold) and whose other vote sources are absent; concrete input where
the claimed market-condition rule and the code disagree. -/
def rsiZeroTech : TechAnalysis :=
  { symbol := "X",
    indicators := { bollinger_bands := none,
                    rsi := some { value := some 0, signal := "oversold" },
                    stochastic := none,
                    macd := none },
    patterns := [], signals := [] }

/-- A technical-analysis result carrying one full-confidence BUY signal;
concrete witness input for the synthesizer ladder. -/
def strongBuyTech : TechAnalysis :=
  { symbol := "Y",
    indicators := { bollinger_bands := none, rsi := none, stochastic := none, macd := none },
    patterns := [],
    signals := [{ type := "BUY", confidence := 1, strength := "strong",
                  supporting_factors := 4 }] }

/-- A persisted record with a terminal outcome; concrete witness input for
the verification sweep. -/
def correctRecord : PredictionRecord :=
  { symbol := "A", prediction_type := "BUY", confidence_score := 1, target_price := none,
    stop_loss := none, time_horizon := "medium", analysis_type := "technical",
    price_at_prediction := 100, market_condition := "neutral", actual_outcome := "correct",
    created_at := 0, expires_at := 0, outcome_verified_at := none }

/-- A technical-analysis value sitting in the cache; concrete witness input
for the cache short-circuit. -/
def cachedTech : TechAnalysis :=
  { symbol := "AAPL",
    indicators := { bollinger_bands := none, rsi := none, stochastic := none, macd := none },
    patterns := [],
    signals := [{ type := "SELL", confidence := 1, strength := "strong",
                  supporting_factors := 5 }] }

/-- The bullish MACD vote of `_determine_market_condition`. -/
def macdBullVote (macd : Option Macd) : ℕ :=
  match macd with
  | some m => if m.trend = "bullish" then 1 else 0
  | none => 0

/-- The bearish MACD vote of `_determine_market_condition`. -/
def macdBearVote (macd : Option Macd) : ℕ :=
  match macd with
  | some m => if ¬ m.trend = "bullish" ∧ m.trend = "bearish" then 1 else 0
  | none => 0

/-- The bullish RSI vote of `_determine_market_condition` (value truthy and
above 50). -/
def rsiBullVote (rsi : Option Rsi) : ℕ :=
  match rsi with
  | some r =>
    match r.value with
    | some v => if v ≠ 0 ∧ 50 < v then 1 else 0
    | none => 0
  | none => 0

/-- The bearish RSI vote of `_determine_market_condition` (value truthy and
below 50; a value of exactly 0 casts no vote). -/
def rsiBearVote (rsi : Option Rsi) : ℕ :=
  match rsi with
  | some r =>
    match r.value with
    | some v => if ¬ (v ≠ 0 ∧ 50 < v) ∧ v ≠ 0 ∧ v < 50 then 1 else 0
    | none => 0
  | none => 0

/-! Theorems. -/

theorem pymin_eq_min (a b : ℚ) : pymin a b = min a b := by
  simp [pymin, min_def]

/-- C1: for every indicator set and pattern list, `_generate_signals` emits
a BUY signal exactly when `buy_score ≥ 3`, with confidence
`min(buy_score / (4 + 2·|patterns|), 1)` and strength `strong` exactly
when `buy_score ≥ 5` (else `moderate`), and symmetrically for SELL; with
a buy score of 4 and no patterns the BUY signal has confidence 1 and
strength `moderate`, and with zero buy and sell scores no signal is
emitted. -/
theorem generate_signals_spec (threshold : ℚ) (ind : Indicators) (pats : List PatternMatch) :
    ((∃ s ∈ generate_signals threshold ind pats, s.type = "BUY") ↔
        3 ≤ buyScore threshold ind pats)
    ∧ (∀ s ∈ generate_signals threshold ind pats, s.type = "BUY" →
        s.confidence =
            min ((buyScore threshold ind pats : ℚ) / (4 + 2 * (pats.length : ℚ))) 1
          ∧ (s.strength = "strong" ↔ 5 ≤ buyScore threshold ind pats))
    ∧ ((∃ s ∈ generate_signals threshold ind pats, s.type = "SELL") ↔
        3 ≤ sellScore threshold ind pats)
    ∧ (∀ s ∈ generate_signals threshold ind pats, s.type = "SELL" →
        s.confidence =
            min ((sellScore threshold ind pats : ℚ) / (4 + 2 * (pats.length : ℚ))) 1
          ∧ (s.strength = "strong" ↔ 5 ≤ sellScore threshold ind pats))
    ∧ (buyScore threshold ind pats = 4 → pats = [] →
        ({ type := "BUY", confidence := 1, strength := "moderate",
           supporting_factors := 4 } : Signal) ∈ generate_signals threshold ind pats)
    ∧ (buyScore threshold ind pats = 0 → sellScore threshold ind pats = 0 →
        generate_signals threshold ind pats = []) := by
  refine ⟨?_, ?_, ?_, ?_, ?_, ?_⟩
  · by_cases hb : 3 ≤ buyScore threshold ind pats <;>
      by_cases hs : 3 ≤ sellScore threshold ind pats <;>
        simp [generate_signals, hb, hs]
  · by_cases hb : 3 ≤ buyScore threshold ind pats <;>
      by_cases hs : 3 ≤ sellScore threshold ind pats <;>
        simp [generate_signals, hb, hs, pymin_eq_min]
  · by_cases hb : 3 ≤ buyScore threshold ind pats <;>
      by_cases hs : 3 ≤ sellScore threshold ind pats <;>
        simp [generate_signals, hb, hs]
  · by_cases hb : 3 ≤ buyScore threshold ind pats <;>
      by_cases hs : 3 ≤ sellScore threshold ind pats <;>
        simp [generate_signals, hb, hs, pymin_eq_min]
  · intro h4 hnil
    subst hnil
    have hb : 3 ≤ buyScore threshold ind [] := by omega
    simp [generate_signals, hb, h4, pymin]
  · intro h0 h0x
    simp [generate_signals, h0, h0x]

/-- C1 witness: with all four indicator signals buy-qualifying and no
patterns, the buy score is 4 and the emitted BUY signal has confidence 1
and strength moderate. -/
theorem generate_signals_spec_witness :
    buyScore (4/5) oversoldIndicators [] = 4 ∧
      ({ type := "BUY", confidence := 1, strength := "moderate",
         supporting_factors := 4 } : Signal) ∈ generate_signals (4/5) oversoldIndicators [] := by
  have h4 : buyScore (4/5) oversoldIndicators [] = 4 := by decide
  exact ⟨h4, (generate_signals_spec (4/5) oversoldIndicators []).2.2.2.2.1 h4 rfl⟩

/-- C2: the prediction synthesizer is a deterministic function of its
inputs; with the default threshold 0.8 and nonzero total weight,
`_combine_analyses` applies the decision ladder in order with first match
winning: `buy_confidence ≥ 0.8` yields BUY with target `1.08·p` and stop
`0.95·p`; else `sell_confidence ≥ 0.8` yields SELL with target `0.92·p`
and stop `1.05·p`; else `buy_confidence > sell_confidence` and
`≥ 0.6` yields BUY with target `1.05·p` and stop `0.97·p`; else the
symmetric SELL rung with target `0.95·p` and stop `1.03·p`; else HOLD
with confidence 0.5 and no target or stop. -/
theorem combine_analyses_decision_ladder (price : ℚ) (tech : Option TechAnalysis)
    (news : Option NewsAnalysis) (h : total_weight tech news ≠ 0) :
    (0.8 ≤ buy_confidence tech news →
        combine_analyses 0.8 price tech news =
          { type := "BUY", confidence := buy_confidence tech news,
            target_price := some (price * 1.08), stop_loss := some (price * 0.95),
            time_horizon := some "medium",
            market_condition := some (determine_market_condition tech) })
    ∧ (¬ 0.8 ≤ buy_confidence tech news → 0.8 ≤ sell_confidence tech news →
        combine_analyses 0.8 price tech news =
          { type := "SELL", confidence := sell_confidence tech news,
            target_price := some (price * 0.92), stop_loss := some (price * 1.05),
            time_horizon := some "medium",
            market_condition := some (determine_market_condition tech) })
    ∧ (¬ 0.8 ≤ buy_confidence tech news → ¬ 0.8 ≤ sell_confidence tech news →
        sell_confidence tech news < buy_confidence tech news ∧
          0.6 ≤ buy_confidence tech news →
        combine_analyses 0.8 price tech news =
          { type := "BUY", confidence := buy_confidence tech news,
            target_price := some (price * 1.05), stop_loss := some (price * 0.97),
            time_horizon := some "medium",
            market_condition := some (determine_market_condition tech) })
    ∧ (¬ 0.8 ≤ buy_confidence tech news → ¬ 0.8 ≤ sell_confidence tech news →
        ¬ (sell_confidence tech news < buy_confidence tech news ∧
            0.6 ≤ buy_confidence tech news) →
        buy_confidence tech news < sell_confidence tech news ∧
          0.6 ≤ sell_confidence tech news →
        combine_analyses 0.8 price tech news =
          { type := "SELL", confidence := sell_confidence tech news,
            target_price := some (price * 0.95), stop_loss := some (price * 1.03),
            time_horizon := some "medium",
            market_condition := some (determine_market_condition tech) })
    ∧ (¬ 0.8 ≤ buy_confidence tech news → ¬ 0.8 ≤ sell_confidence tech news →
        ¬ (sell_confidence tech news < buy_confidence tech news ∧
            0.6 ≤ buy_confidence tech news) →
        ¬ (buy_confidence tech news < sell_confidence tech news ∧
            0.6 ≤ sell_confidence tech news) →
        combine_analyses 0.8 price tech news =
          { type := "HOLD", confidence := 0.5, target_price := none, stop_loss := none,
            time_horizon := some "medium",
            market_condition := some (determine_market_condition tech) }) := by
  refine ⟨?_, ?_, ?_, ?_, ?_⟩ <;> intros <;>
    simp only [combine_analyses, if_neg h] <;> split_ifs <;> rfl

/-- C2 witness: a single full-confidence BUY technical signal and no
sentiment gives buy confidence 1 ≥ 0.8, hence a BUY prediction with
target 108 and stop 95 from price 100. -/
theorem combine_analyses_decision_ladder_witness :
    combine_analyses 0.8 100 (some strongBuyTech) none =
      { type := "BUY", confidence := 1, target_price := some 108, stop_loss := some 95,
        time_horizon := some "medium", market_condition := some "sideways" } := by
  have ht : total_weight (some strongBuyTech) none ≠ 0 := by
    norm_num [total_weight, analysisScores, signalScores, strongBuyTech]
  have hbc : buy_confidence (some strongBuyTech) none = 1 := by
    norm_num [buy_confidence, total_weight, analysisScores, signalScores, strongBuyTech]
  have h := (combine_analyses_decision_ladder 100 (some strongBuyTech) none ht).1
    (by rw [hbc]; norm_num)
  rw [h, hbc]
  norm_num [determine_market_condition, strongBuyTech]

/-- C3 counterexample: with MACD absent and an available RSI whose value is
exactly 0 (< 50), the rule as the claim states it returns `bearish`, but
the code returns `sideways`: Python's `if rsi_value and rsi_value < 50`
guard discards the vote of a zero RSI. -/
theorem determine_market_condition_counterexample :
    market_condition_claimed (some rsiZeroTech) = "bearish" ∧
      determine_market_condition (some rsiZeroTech) = "sideways" := by
  constructor <;>
    norm_num [market_condition_claimed, determine_market_condition, rsiZeroTech]

theorem macdVotes_split (macd : Option Macd) :
    (match macd with
      | some m =>
        if m.trend = "bullish" then ((1 : ℕ), (0 : ℕ))
        else if m.trend = "bearish" then (0, 1)
        else (0, 0)
      | none => (0, 0)) = (macdBullVote macd, macdBearVote macd) := by
  rcases macd with _ | ⟨mm, ms, mh, t⟩
  · rfl
  · simp only [macdBullVote, macdBearVote]
    by_cases hA : t = "bullish" <;> by_cases hB : t = "bearish" <;> simp_all

theorem rsiVotes_split (rsi : Option Rsi) :
    (match rsi with
      | some r =>
        match r.value with
        | some v =>
          if v ≠ 0 ∧ 50 < v then ((1 : ℕ), (0 : ℕ))
          else if v ≠ 0 ∧ v < 50 then (0, 1)
          else (0, 0)
        | none => (0, 0)
      | none => (0, 0)) = (rsiBullVote rsi, rsiBearVote rsi) := by
  rcases rsi with _ | ⟨v, rsig⟩
  · rfl
  · rcases v with _ | v
    · rfl
    · simp only [rsiBullVote, rsiBearVote]
      by_cases hA : v ≠ 0 ∧ 50 < v
      · simp [hA]
      · by_cases hB : v ≠ 0 ∧ v < 50
        · obtain ⟨h0, hlt⟩ := hB
          simp [hA, h0, hlt, not_lt.2 hlt.le, hlt.le]
        · simp [hA, hB]

/-- C3 amended: market condition is determined by votes — MACD bullish and
truthy RSI > 50 count bullish, MACD bearish and truthy RSI < 50 count
bearish, where an RSI value of exactly 0 is falsy and casts no vote;
strictly more bullish votes yield `bullish`, strictly more bearish votes
`bearish`, a tie `sideways`, and a missing analysis `neutral`. -/
theorem determine_market_condition_amended (tech : Option TechAnalysis) :
    determine_market_condition tech =
      (match tech with
       | none => "neutral"
       | some ta =>
         let bull := macdBullVote ta.indicators.macd + rsiBullVote ta.indicators.rsi
         let bear := macdBearVote ta.indicators.macd + rsiBearVote ta.indicators.rsi
         if bear < bull then "bullish"
         else if bull < bear then "bearish"
         else "sideways") := by
  cases tech with
  | none => rfl
  | some ta =>
    simp only [determine_market_condition, macdVotes_split ta.indicators.macd,
      rsiVotes_split ta.indicators.rsi]

/-- C4: for every created prediction record, `created_at` is the creation
instant and `expires_at` equals `created_at` plus exactly 7 days when the
time horizon is `short`, 90 days when `long`, and 30 days otherwise
(`medium` or default). -/
theorem prediction_expiry (now : ℤ) (sym atype : String) (pr : PredictionResult)
    (price : ℚ) :
    (generate_prediction_record now sym atype pr price).created_at = now
    ∧ ((generate_prediction_record now sym atype pr price).time_horizon = "short" →
        (generate_prediction_record now sym atype pr price).expires_at =
          (generate_prediction_record now sym atype pr price).created_at + 7 * 86400)
    ∧ ((generate_prediction_record now sym atype pr price).time_horizon = "long" →
        (generate_prediction_record now sym atype pr price).expires_at =
          (generate_prediction_record now sym atype pr price).created_at + 90 * 86400)
    ∧ ((generate_prediction_record now sym atype pr price).time_horizon ≠ "short" →
        (generate_prediction_record now sym atype pr price).time_horizon ≠ "long" →
        (generate_prediction_record now sym atype pr price).expires_at =
          (generate_prediction_record now sym atype pr price).created_at + 30 * 86400) := by
  refine ⟨rfl, ?_, ?_, ?_⟩ <;>
    · simp only [generate_prediction_record]
      intros
      split_ifs <;> simp_all

/-- C4 witness: a `short`-horizon prediction created at time 1000 expires at
`1000 + 7 · 86400`. -/
theorem prediction_expiry_witness :
    (generate_prediction_record 1000 "AAPL" "hybrid"
        { type := "BUY", confidence := 1, target_price := none, stop_loss := none,
          time_horizon := some "short", market_condition := none } 100).expires_at =
      1000 + 7 * 86400 := by
  have h := prediction_expiry 1000 "AAPL" "hybrid"
    { type := "BUY", confidence := 1, target_price := none, stop_loss := none,
      time_horizon := some "short", market_condition := none } 100
  have h2 := h.2.1 rfl
  rw [h.1] at h2
  exact h2

/-- C5: when the total weight is zero, `_combine_analyses` returns a HOLD
prediction with confidence 0.5, market condition `uncertain` and no
target or stop-loss; absent sentiment contributes zero weight, so the
total weight with no news is exactly the technical signals' weight
sum. -/
theorem combine_analyses_zero_weight (threshold price : ℚ) (tech : Option TechAnalysis)
    (news : Option NewsAnalysis) :
    (total_weight tech news = 0 →
        combine_analyses threshold price tech news =
          { type := "HOLD", confidence := 0.5, target_price := none, stop_loss := none,
            time_horizon := none, market_condition := some "uncertain" })
    ∧ total_weight tech none =
        (signalScores (match tech with | some ta => ta.signals | none => [])).2.2 := by
  constructor
  · intro h
    simp [combine_analyses, h]
  · cases tech <;> rfl

/-- C5 witness: with no technical analysis and no sentiment the total
weight is zero and the synthesizer returns the uncertain HOLD draft. -/
theorem combine_analyses_zero_weight_witness :
    combine_analyses 0.8 100 none none =
      { type := "HOLD", confidence := 0.5, target_price := none, stop_loss := none,
        time_horizon := none, market_condition := some "uncertain" } :=
  (combine_analyses_zero_weight 0.8 100 none none).1 rfl

/-- C6: the pattern detector is total and guarded: an empty frame yields
`[]`; a most-recent bar with `high = low` yields no matches (the division
by the candle range is never executed on zero); a qualifying Doji
(`|close − open| / (high − low) < 0.1` with positive range) is reported
as neutral with confidence exactly 0.7; and when no pattern condition
holds the result is the empty list, never an error. -/
theorem pattern_detector_total (df : List PriceBar) :
    (df = [] → simple_pattern_detection df = [])
    ∧ (∀ c, df.getLast? = some c →
        ((c.high = c.low → simple_pattern_detection df = [])
         ∧ (0 < c.high - c.low → |c.close - c.open_| / (c.high - c.low) < 0.1 →
             ({ name := "Doji", type := "neutral", confidence := 0.7,
                indicator := "simple_doji" } : PatternMatch) ∈ simple_pattern_detection df)
         ∧ (¬ (0 < c.high - c.low ∧ |c.close - c.open_| / (c.high - c.low) < 0.1) →
            ¬ (0 < c.high - c.low ∧
                0.6 < (if c.open_ < c.close then c.open_ - c.low else c.close - c.low) /
                  (c.high - c.low)) →
            ¬ (0 < c.high - c.low ∧
                0.6 < (if c.open_ < c.close then c.high - c.close else c.high - c.open_) /
                  (c.high - c.low)) →
              simple_pattern_detection df = []))) := by
  constructor
  · intro h
    subst h
    rfl
  · intro c hc
    refine ⟨?_, ?_, ?_⟩
    · intro hz
      simp [simple_pattern_detection, hc, hz]
    · intro h1 h2
      simp [simple_pattern_detection, hc, h1, h2]
    · intro h1 h2 h3
      simp only [simple_pattern_detection, hc]
      rw [if_neg h1, if_neg h2, if_neg h3]
      rfl

/-- C6 witness: a zero-range bar produces no matches, and a bar with range
10 and zero body produces the Doji match with confidence 0.7. -/
theorem pattern_detector_total_witness :
    simple_pattern_detection
        [{ timestamp := 0, open_ := 10, high := 10, low := 10, close := 10, volume := 0 }] = []
    ∧ ({ name := "Doji", type := "neutral", confidence := 0.7,
         indicator := "simple_doji" } : PatternMatch) ∈
        simple_pattern_detection
          [{ timestamp := 0, open_ := 100, high := 105, low := 95, close := 100,
             volume := 0 }] := by
  constructor
  · have h := (pattern_detector_total
      [{ timestamp := 0, open_ := 10, high := 10, low := 10, close := 10, volume := 0 }]).2
      { timestamp := 0, open_ := 10, high := 10, low := 10, close := 10, volume := 0 } rfl
    exact h.1 rfl
  · have h := (pattern_detector_total
      [{ timestamp := 0, open_ := 100, high := 105, low := 95, close := 100, volume := 0 }]).2
      { timestamp := 0, open_ := 100, high := 105, low := 95, close := 100, volume := 0 } rfl
    exact h.2.1 (by norm_num) (by norm_num)

/-- C7: the verification sweep touches only records that are `pending` and
expired — a record that is not pending, or not yet expired, passes
through unchanged (re-verifying it is a no-op, never an error); no
record's outcome field ever changes (so nothing leaves a terminal
state); and running the sweep twice in succession with the same clock
leaves the set of pending records unchanged. -/
theorem verify_predictions_spec (now : ℤ) (symbols : Option (List String))
    (db : List PredictionRecord) :
    ((verify_predictions now symbols db).map PredictionRecord.actual_outcome =
        db.map PredictionRecord.actual_outcome)
    ∧ (∀ r : PredictionRecord, r.actual_outcome ≠ "pending" →
        verifyRecord now symbols r = r)
    ∧ (∀ r : PredictionRecord, ¬ r.expires_at ≤ now → verifyRecord now symbols r = r)
    ∧ ((verify_predictions now symbols (verify_predictions now symbols db)).map
          (fun r => r.actual_outcome == "pending") =
        db.map (fun r => r.actual_outcome == "pending")) := by
  have hout : ∀ r : PredictionRecord,
      (verifyRecord now symbols r).actual_outcome = r.actual_outcome := by
    intro r
    unfold verifyRecord
    split <;> rfl
  refine ⟨?_, ?_, ?_, ?_⟩
  · simp only [verify_predictions, List.map_map]
    exact List.map_congr_left fun r _ => hout r
  · intro r h
    simp [verifyRecord, shouldVerify, h]
  · intro r h
    simp [verifyRecord, shouldVerify, h]
  · simp only [verify_predictions, List.map_map]
    exact List.map_congr_left fun r _ => by simp [Function.comp, hout]

/-- C7 witness: sweeping a store holding one expired `correct` record and
one expired `pending` record changes no outcome, leaves the terminal
record untouched, and preserves the pending set across a double
sweep. -/
theorem verify_predictions_spec_witness :
    verifyRecord 5 none correctRecord = correctRecord
    ∧ (verify_predictions 5 none
          [correctRecord,
           { correctRecord with actual_outcome := "pending" }]).map
        PredictionRecord.actual_outcome = ["correct", "pending"] := by
  have h := verify_predictions_spec 5 none
    [correctRecord, { correctRecord with actual_outcome := "pending" }]
  refine ⟨h.2.1 correctRecord (by decide), ?_⟩
  rw [h.1]
  rfl

/-- C8: cache operations never propagate a backend failure: a raising
backend read makes `cache_get` return `None` exactly like a miss, and a
raising serialization or `setex` makes `cache_set` return `False`, while
a successful write returns `True`. -/
theorem cache_failure_degrades {α : Type} (e : String) (parse : String → Except String α)
    (ttl : Option ℕ) (config_ttl : ℕ) (payload : String)
    (setex : String → ℕ → Except String Unit) :
    cache_get (Except.error e) parse = none
    ∧ cache_get (Except.ok none) parse = none
    ∧ cache_set ttl config_ttl (Except.error e) setex = false
    ∧ cache_set ttl config_ttl (Except.ok payload) (fun _ _ => Except.error e) = false
    ∧ cache_set ttl config_ttl (Except.ok payload) (fun _ _ => Except.ok ()) = true :=
  ⟨rfl, rfl, rfl, rfl, rfl⟩

/-- C9: accuracy aggregation counts the non-pending (optionally
symbol-filtered) records and the correct ones among them, reports both,
and returns `accuracy_percentage = correct / total · 100`, with 0 — not
an error — when the selection is empty. -/
theorem get_accuracy_stats_spec (symbol : Option String) (db : List PredictionRecord) :
    (get_accuracy_stats symbol db).total_predictions =
        (db.filter (fun r => r.actual_outcome != "pending" && matchesSymbol symbol r)).length
    ∧ (get_accuracy_stats symbol db).correct_predictions =
        (db.filter (fun r =>
          r.actual_outcome != "pending" && matchesSymbol symbol r &&
            r.actual_outcome == "correct")).length
    ∧ (get_accuracy_stats symbol db).accuracy_percentage =
        (if 0 < (get_accuracy_stats symbol db).total_predictions then
          ((get_accuracy_stats symbol db).correct_predictions : ℚ) /
              ((get_accuracy_stats symbol db).total_predictions : ℚ) * 100
         else 0)
    ∧ ((get_accuracy_stats symbol db).total_predictions = 0 →
        (get_accuracy_stats symbol db).accuracy_percentage = 0)
    ∧ (get_accuracy_stats symbol db).symbol = symbol := by
  refine ⟨rfl, rfl, rfl, ?_, rfl⟩
  intro h
  simp only [get_accuracy_stats] at h ⊢
  rw [if_neg (by omega)]

/-- C9 witness: over an empty store the accuracy statistics report zero
totals and accuracy 0 rather than an error. -/
theorem get_accuracy_stats_spec_witness :
    (get_accuracy_stats none ([] : List PredictionRecord)).accuracy_percentage = 0 :=
  (get_accuracy_stats_spec none []).2.2.2.1 rfl

/-- C10: `analyze_asset` reads the key `analysis:technical:<symbol>`;
whenever the cached entry there decodes to a non-empty (truthy) value,
it returns that cached value unchanged with no recomputation and no
cache write — the supplied price data, indicator and pattern
computations and threshold have no influence — while a missing, empty
or falsy cached value triggers full recomputation followed by a cache
write of the fresh result under the same key with TTL 300. -/
theorem analyze_asset_cache_spec (calcInd calcInd2 : List PriceBar → Indicators)
    (det det2 : List PriceBar → List PatternMatch) (threshold threshold2 : ℚ)
    (fetch : String → Except String (Option String))
    (parse : String → Except String (Option TechAnalysis))
    (symbol : String) (pd pd2 : List PriceBar) :
    get_analysis_cache_key symbol "technical" = "analysis:technical:" ++ symbol
    ∧ (∀ v, cache_get (fetch (get_analysis_cache_key symbol "technical")) parse =
          some (some v) →
        analyze_asset calcInd det threshold fetch parse symbol pd = (v, none)
        ∧ analyze_asset calcInd det threshold fetch parse symbol pd =
            analyze_asset calcInd2 det2 threshold2 fetch parse symbol pd2)
    ∧ (∀ c, cache_get (fetch (get_analysis_cache_key symbol "technical")) parse = c →
        c = none ∨ c = some none →
        analyze_asset calcInd det threshold fetch parse symbol pd =
          ({ symbol := symbol, indicators := calcInd pd, patterns := det pd,
             signals := generate_signals threshold (calcInd pd) (det pd) },
           some (get_analysis_cache_key symbol "technical",
             { symbol := symbol, indicators := calcInd pd, patterns := det pd,
               signals := generate_signals threshold (calcInd pd) (det pd) }, 300))) := by
  refine ⟨rfl, ?_, ?_⟩
  · intro v hv
    constructor
    · simp [analyze_asset, hv]
    · simp [analyze_asset, hv]
  · intro c hc hcase
    rcases hcase with h | h <;> subst h <;> simp [analyze_asset, hc]

/-- C10 witness: with a backend holding a decodable entry under
`analysis:technical:AAPL`, `analyze_asset` returns the cached value with
no cache write, for arbitrary price data. -/
theorem analyze_asset_cache_spec_witness :
    analyze_asset
        (fun _ => { bollinger_bands := none, rsi := none, stochastic := none, macd := none })
        (fun _ => []) 0.8 (fun _ => Except.ok (some "x"))
        (fun _ => Except.ok (some cachedTech)) "AAPL" [] = (cachedTech, none) := by
  have h := (analyze_asset_cache_spec
    (fun _ => { bollinger_bands := none, rsi := none, stochastic := none, macd := none })
    (fun _ => { bollinger_bands := none, rsi := none, stochastic := none, macd := none })
    (fun _ => []) (fun _ => []) 0.8 0.8 (fun _ => Except.ok (some "x"))
    (fun _ => Except.ok (some cachedTech)) "AAPL" [] []).2.1 cachedTech (by
      simp [cache_get])
  exact h.1

end Broker
